import Mathlib

/-!
Shallow embedding of the data-triangulation and intent-resolution core of the
finance-llm-researcher repository (`src/app/data_fetcher.py`, `src/app/indicators.py`,
`src/app/countries.py`, `src/app/chat_engine.py`, and the confidence banding of
`src/data_pipeline/data_generator.py`), together with theorems settling the claims
about it.

Modelling conventions:
* Python floats are modelled as exact rationals (`ℚ`); `round(x, n)` is modelled as
  round-half-to-even at `n` decimal digits.
* Python dicts (which preserve insertion order) are modelled as association lists in
  source order; `dict.get` is association-list lookup.
* The process-wide `random` stream is modelled by a `World` value holding the draws
  that `DataFetcher._generate_simulated_value` consumes (one shared `variation` draw
  and three independent small-noise draws; the magnitude band the source picks for
  each draw only shapes the distribution, the drawn value itself is an input here),
  plus the `datetime.now`-derived period string.
* Python string containment (`needle in hay`) is `strIn`; `str.lower()` is `lowerStr`
  (the catalogs and queries involved are ASCII).
-/

/-- Prefix test on character lists (needle is a prefix of hay). -/
def isPref : List Char → List Char → Bool
  | [], _ => true
  | _ :: _, [] => false
  | a :: as, b :: bs => a == b && isPref as bs

/-- Substring test on character lists: Python's `needle in hay`. -/
def isSub (needle : List Char) : List Char → Bool
  | [] => needle.isEmpty
  | c :: rest => isPref needle (c :: rest) || isSub needle rest

/-- Python's `needle in hay` on strings. -/
def strIn (needle hay : String) : Bool :=
  isSub needle.toList hay.toList

/-- ASCII lower-casing of a character, as Python's `str.lower` does on ASCII. -/
def lowerChar (c : Char) : Char :=
  if 65 ≤ c.toNat ∧ c.toNat ≤ 90 then Char.ofNat (c.toNat + 32) else c

/-- ASCII lower-casing of a string (Python `str.lower()` on the ASCII catalogs/queries). -/
def lowerStr (s : String) : String :=
  ⟨s.toList.map lowerChar⟩

/-- Python `"x - y".replace(" - ", " ")` on character lists (left-to-right,
non-overlapping, the replacement is not rescanned). -/
def replaceDashChars : List Char → List Char
  | [] => []
  | ' ' :: '-' :: ' ' :: rest => ' ' :: replaceDashChars rest
  | c :: rest => c :: replaceDashChars rest

/-- Python `s.replace(" - ", " ")` on strings. -/
def replaceDash (s : String) : String :=
  ⟨replaceDashChars s.toList⟩

/-- Stable insertion of `x` into `l`: `x` goes in front of the first element `y`
with `r x y = true`.  With a strict comparator this reproduces the element order of
Python's stable `list.sort`. -/
def ins (r : α → α → Bool) (x : α) : List α → List α
  | [] => [x]
  | y :: ys => if r x y then x :: y :: ys else y :: ins r x ys

/-- Insertion sort, inserting from the right; with the non-strict comparator
`r a b = (key b ≤ key a)` this reproduces Python's stable
`list.sort(key=key, reverse=True)` (ties keep their original order), and with
`r a b = (key a ≤ key b)` it reproduces `list.sort(key=key)`. -/
def isort (r : α → α → Bool) : List α → List α
  | [] => []
  | x :: xs => ins r x (isort r xs)

/-- Round-half-to-even to an integer, the rounding mode of Python's `round`. -/
def roundHalfEven (x : ℚ) : ℤ :=
  let f := ⌊x⌋
  let r := x - f
  if r < 1 / 2 then f
  else if 1 / 2 < r then f + 1
  else if f % 2 = 0 then f else f + 1

/-- Python's `round(x, n)` for `n ≥ 0` decimal digits (round-half-to-even). -/
def roundTo (n : ℕ) (x : ℚ) : ℚ :=
  (roundHalfEven (x * 10 ^ n) : ℚ) / 10 ^ n

/-- A Python float threshold value: either a finite value or `float("±inf")`. -/
inductive XQ where
  | negInf : XQ
  | val : ℚ → XQ
  | posInf : XQ
deriving DecidableEq

/-- Python's `v >= t` for a finite float `v` and a threshold `t` (possibly `±inf`). -/
def XQ.geV (v : ℚ) : XQ → Bool
  | .negInf => true
  | .val x => decide (x ≤ v)
  | .posInf => false

/-- Python's `v <= t` for a finite float `v` and a threshold `t` (possibly `±inf`). -/
def XQ.leV (v : ℚ) : XQ → Bool
  | .negInf => false
  | .val x => decide (v ≤ x)
  | .posInf => true

/-- Strict order on threshold values, with `-inf < finite < +inf`. -/
def XQ.ltB : XQ → XQ → Bool
  | .negInf, .negInf => false
  | .negInf, _ => true
  | .val _, .negInf => false
  | .val a, .val b => decide (a < b)
  | .val _, .posInf => true
  | .posInf, _ => false

/-- Python `max(values)` for a nonempty list (0 for the empty list, never hit). -/
def listMax : List ℚ → ℚ
  | [] => 0
  | x :: xs => xs.foldl max x

/-- Python `min(values)` for a nonempty list (0 for the empty list, never hit). -/
def listMin : List ℚ → ℚ
  | [] => 0
  | x :: xs => xs.foldl min x

/-- Arithmetic mean of a list: `sum(values) / len(values)`. -/
def listMean (l : List ℚ) : ℚ :=
  l.sum / (l.length : ℚ)

/-- Python `[v for v in values if v is not None]`. -/
def pyFilterSome (l : List (Option ℚ)) : List ℚ :=
  l.filterMap id

/-- Python list slice `l[:n]` for an `int` bound `n`: nonnegative `n` truncates to the
first `n` elements, negative `n` drops the last `|n|` elements. -/
def pyTake (n : ℤ) (l : List α) : List α :=
  if 0 ≤ n then l.take n.toNat else l.take (l.length - n.natAbs)

/-- Python truthiness of an `Optional[str]` (`None` and `""` are falsy). -/
def pyTruthyOptStr : Option String → Bool
  | none => false
  | some s => !(s == "")

/-- `dict.get(key)` over an insertion-ordered association list. -/
def dget (l : List (String × α)) (k : String) : Option α :=
  (l.find? fun p => p.1 == k).map Prod.snd

/-- `src/app/countries.py` `CountryInfo`. -/
structure CountryInfo where
  code : String
  name : String
  region : String
  sub_region : String
  income_level : String
  currency : String
  flag_emoji : String
deriving DecidableEq

/-- `src/app/indicators.py` `IndicatorConfig`. -/
structure IndicatorConfig where
  code : String
  name : String
  display_name : String
  short_name : String
  unit : String
  description : String
  icon : String
  higher_is_better : Option Bool
  decimal_places : ℕ
  color : String
deriving DecidableEq

/-- `src/app/data_fetcher.py` `TriangulatedData`. -/
structure TriangulatedData where
  country_code : String
  country_name : String
  region : String
  income_level : String
  indicator_code : String
  indicator_name : String
  unit : String
  fred_value : Option ℚ
  worldbank_value : Option ℚ
  oecd_value : Option ℚ
  consensus_value : Option ℚ
  confidence_level : String
  confidence_description : String
  assessment_label : String
  assessment_description : String
  period : String
  source_count : ℕ
deriving DecidableEq

/-- The intent dictionary built by `ChatEngine.detect_intent`. -/
structure Intent where
  type : String
  countries : List String
  indicators : List String
  is_comparison : Bool
  is_ranking : Bool
  is_regional : Bool
  region : Option String
deriving DecidableEq

/-- The ambient process state a `triangulate` call consumes: the shared
`random.uniform` variation draw, the three independent per-source noise draws, and
the `datetime.now()`-derived quarter string. -/
structure World where
  variation : ℚ
  noise1 : ℚ
  noise2 : ℚ
  noise3 : ℚ
  nowPeriod : String


/-- Chunk 0 of the `COUNTRIES` dict of `src/app/countries.py` (split for elaboration speed; source insertion order preserved). -/
def COUNTRIES_chunk0 : List (String × CountryInfo) := [
  ("USA", ⟨"USA", "United States", "North America", "Northern America", "high", "USD", "🇺🇸"⟩),
  ("CAN", ⟨"CAN", "Canada", "North America", "Northern America", "high", "CAD", "🇨🇦"⟩),
  ("MEX", ⟨"MEX", "Mexico", "North America", "Central America", "upper_middle", "MXN", "🇲🇽"⟩),
  ("BRA", ⟨"BRA", "Brazil", "South America", "South America", "upper_middle", "BRL", "🇧🇷"⟩),
  ("ARG", ⟨"ARG", "Argentina", "South America", "South America", "upper_middle", "ARS", "🇦🇷"⟩),
  ("CHL", ⟨"CHL", "Chile", "South America", "South America", "high", "CLP", "🇨🇱"⟩),
  ("COL", ⟨"COL", "Colombia", "South America", "South America", "upper_middle", "COP", "🇨🇴"⟩),
  ("PER", ⟨"PER", "Peru", "South America", "South America", "upper_middle", "PEN", "🇵🇪"⟩),
  ("VEN", ⟨"VEN", "Venezuela", "South America", "South America", "upper_middle", "VES", "🇻🇪"⟩),
  ("ECU", ⟨"ECU", "Ecuador", "South America", "South America", "upper_middle", "USD", "🇪🇨"⟩),
  ("BOL", ⟨"BOL", "Bolivia", "South America", "South America", "lower_middle", "BOB", "🇧🇴"⟩),
  ("URY", ⟨"URY", "Uruguay", "South America", "South America", "high", "UYU", "🇺🇾"⟩),
  ("PRY", ⟨"PRY", "Paraguay", "South America", "South America", "upper_middle", "PYG", "🇵🇾"⟩),
  ("GBR", ⟨"GBR", "United Kingdom", "Europe", "Western Europe", "high", "GBP", "🇬🇧"⟩),
  ("DEU", ⟨"DEU", "Germany", "Europe", "Western Europe", "high", "EUR", "🇩🇪"⟩),
  ("FRA", ⟨"FRA", "France", "Europe", "Western Europe", "high", "EUR", "🇫🇷"⟩),
  ("NLD", ⟨"NLD", "Netherlands", "Europe", "Western Europe", "high", "EUR", "🇳🇱"⟩),
  ("BEL", ⟨"BEL", "Belgium", "Europe", "Western Europe", "high", "EUR", "🇧🇪"⟩),
  ("CHE", ⟨"CHE", "Switzerland", "Europe", "Western Europe", "high", "CHF", "🇨🇭"⟩),
  ("AUT", ⟨"AUT", "Austria", "Europe", "Western Europe", "high", "EUR", "🇦🇹"⟩),
  ("IRL", ⟨"IRL", "Ireland", "Europe", "Western Europe", "high", "EUR", "🇮🇪"⟩),
  ("LUX", ⟨"LUX", "Luxembourg", "Europe", "Western Europe", "high", "EUR", "🇱🇺"⟩),
  ("SWE", ⟨"SWE", "Sweden", "Europe", "Northern Europe", "high", "SEK", "🇸🇪"⟩),
  ("NOR", ⟨"NOR", "Norway", "Europe", "Northern Europe", "high", "NOK", "🇳🇴"⟩)]

/-- Chunk 1 of the `COUNTRIES` dict of `src/app/countries.py` (split for elaboration speed; source insertion order preserved). -/
def COUNTRIES_chunk1 : List (String × CountryInfo) := [
  ("DNK", ⟨"DNK", "Denmark", "Europe", "Northern Europe", "high", "DKK", "🇩🇰"⟩),
  ("FIN", ⟨"FIN", "Finland", "Europe", "Northern Europe", "high", "EUR", "🇫🇮"⟩),
  ("ISL", ⟨"ISL", "Iceland", "Europe", "Northern Europe", "high", "ISK", "🇮🇸"⟩),
  ("ITA", ⟨"ITA", "Italy", "Europe", "Southern Europe", "high", "EUR", "🇮🇹"⟩),
  ("ESP", ⟨"ESP", "Spain", "Europe", "Southern Europe", "high", "EUR", "🇪🇸"⟩),
  ("PRT", ⟨"PRT", "Portugal", "Europe", "Southern Europe", "high", "EUR", "🇵🇹"⟩),
  ("GRC", ⟨"GRC", "Greece", "Europe", "Southern Europe", "high", "EUR", "🇬🇷"⟩),
  ("SVN", ⟨"SVN", "Slovenia", "Europe", "Southern Europe", "high", "EUR", "🇸🇮"⟩),
  ("HRV", ⟨"HRV", "Croatia", "Europe", "Southern Europe", "high", "EUR", "🇭🇷"⟩),
  ("SRB", ⟨"SRB", "Serbia", "Europe", "Southern Europe", "upper_middle", "RSD", "🇷🇸"⟩),
  ("POL", ⟨"POL", "Poland", "Europe", "Eastern Europe", "high", "PLN", "🇵🇱"⟩),
  ("CZE", ⟨"CZE", "Czech Republic", "Europe", "Eastern Europe", "high", "CZK", "🇨🇿"⟩),
  ("HUN", ⟨"HUN", "Hungary", "Europe", "Eastern Europe", "high", "HUF", "🇭🇺"⟩),
  ("ROU", ⟨"ROU", "Romania", "Europe", "Eastern Europe", "upper_middle", "RON", "🇷🇴"⟩),
  ("BGR", ⟨"BGR", "Bulgaria", "Europe", "Eastern Europe", "upper_middle", "BGN", "🇧🇬"⟩),
  ("UKR", ⟨"UKR", "Ukraine", "Europe", "Eastern Europe", "lower_middle", "UAH", "🇺🇦"⟩),
  ("SVK", ⟨"SVK", "Slovakia", "Europe", "Eastern Europe", "high", "EUR", "🇸🇰"⟩),
  ("EST", ⟨"EST", "Estonia", "Europe", "Eastern Europe", "high", "EUR", "🇪🇪"⟩),
  ("LVA", ⟨"LVA", "Latvia", "Europe", "Eastern Europe", "high", "EUR", "🇱🇻"⟩),
  ("LTU", ⟨"LTU", "Lithuania", "Europe", "Eastern Europe", "high", "EUR", "🇱🇹"⟩),
  ("RUS", ⟨"RUS", "Russia", "Russia and CIS", "Eastern Europe", "upper_middle", "RUB", "🇷🇺"⟩),
  ("KAZ", ⟨"KAZ", "Kazakhstan", "Russia and CIS", "Central Asia", "upper_middle", "KZT", "🇰🇿"⟩),
  ("UZB", ⟨"UZB", "Uzbekistan", "Russia and CIS", "Central Asia", "lower_middle", "UZS", "🇺🇿"⟩),
  ("BLR", ⟨"BLR", "Belarus", "Russia and CIS", "Eastern Europe", "upper_middle", "BYN", "🇧🇾"⟩)]

/-- Chunk 2 of the `COUNTRIES` dict of `src/app/countries.py` (split for elaboration speed; source insertion order preserved). -/
def COUNTRIES_chunk2 : List (String × CountryInfo) := [
  ("AZE", ⟨"AZE", "Azerbaijan", "Russia and CIS", "Western Asia", "upper_middle", "AZN", "🇦🇿"⟩),
  ("GEO", ⟨"GEO", "Georgia", "Russia and CIS", "Western Asia", "upper_middle", "GEL", "🇬🇪"⟩),
  ("ARM", ⟨"ARM", "Armenia", "Russia and CIS", "Western Asia", "upper_middle", "AMD", "🇦🇲"⟩),
  ("CHN", ⟨"CHN", "China", "Asia", "Eastern Asia", "upper_middle", "CNY", "🇨🇳"⟩),
  ("JPN", ⟨"JPN", "Japan", "Asia", "Eastern Asia", "high", "JPY", "🇯🇵"⟩),
  ("KOR", ⟨"KOR", "South Korea", "Asia", "Eastern Asia", "high", "KRW", "🇰🇷"⟩),
  ("TWN", ⟨"TWN", "Taiwan", "Asia", "Eastern Asia", "high", "TWD", "🇹🇼"⟩),
  ("HKG", ⟨"HKG", "Hong Kong", "Asia", "Eastern Asia", "high", "HKD", "🇭🇰"⟩),
  ("MNG", ⟨"MNG", "Mongolia", "Asia", "Eastern Asia", "lower_middle", "MNT", "🇲🇳"⟩),
  ("IND", ⟨"IND", "India", "Asia", "Southern Asia", "lower_middle", "INR", "🇮🇳"⟩),
  ("PAK", ⟨"PAK", "Pakistan", "Asia", "Southern Asia", "lower_middle", "PKR", "🇵🇰"⟩),
  ("BGD", ⟨"BGD", "Bangladesh", "Asia", "Southern Asia", "lower_middle", "BDT", "🇧🇩"⟩),
  ("LKA", ⟨"LKA", "Sri Lanka", "Asia", "Southern Asia", "lower_middle", "LKR", "🇱🇰"⟩),
  ("NPL", ⟨"NPL", "Nepal", "Asia", "Southern Asia", "lower_middle", "NPR", "🇳🇵"⟩),
  ("IDN", ⟨"IDN", "Indonesia", "Asia", "South-Eastern Asia", "upper_middle", "IDR", "🇮🇩"⟩),
  ("THA", ⟨"THA", "Thailand", "Asia", "South-Eastern Asia", "upper_middle", "THB", "🇹🇭"⟩),
  ("VNM", ⟨"VNM", "Vietnam", "Asia", "South-Eastern Asia", "lower_middle", "VND", "🇻🇳"⟩),
  ("MYS", ⟨"MYS", "Malaysia", "Asia", "South-Eastern Asia", "upper_middle", "MYR", "🇲🇾"⟩),
  ("SGP", ⟨"SGP", "Singapore", "Asia", "South-Eastern Asia", "high", "SGD", "🇸🇬"⟩),
  ("PHL", ⟨"PHL", "Philippines", "Asia", "South-Eastern Asia", "lower_middle", "PHP", "🇵🇭"⟩),
  ("MMR", ⟨"MMR", "Myanmar", "Asia", "South-Eastern Asia", "lower_middle", "MMK", "🇲🇲"⟩),
  ("KHM", ⟨"KHM", "Cambodia", "Asia", "South-Eastern Asia", "lower_middle", "KHR", "🇰🇭"⟩),
  ("SAU", ⟨"SAU", "Saudi Arabia", "Middle East", "Western Asia", "high", "SAR", "🇸🇦"⟩),
  ("ARE", ⟨"ARE", "United Arab Emirates", "Middle East", "Western Asia", "high", "AED", "🇦🇪"⟩)]

/-- Chunk 3 of the `COUNTRIES` dict of `src/app/countries.py` (split for elaboration speed; source insertion order preserved). -/
def COUNTRIES_chunk3 : List (String × CountryInfo) := [
  ("ISR", ⟨"ISR", "Israel", "Middle East", "Western Asia", "high", "ILS", "🇮🇱"⟩),
  ("TUR", ⟨"TUR", "Turkey", "Middle East", "Western Asia", "upper_middle", "TRY", "🇹🇷"⟩),
  ("IRN", ⟨"IRN", "Iran", "Middle East", "Western Asia", "lower_middle", "IRR", "🇮🇷"⟩),
  ("IRQ", ⟨"IRQ", "Iraq", "Middle East", "Western Asia", "upper_middle", "IQD", "🇮🇶"⟩),
  ("QAT", ⟨"QAT", "Qatar", "Middle East", "Western Asia", "high", "QAR", "🇶🇦"⟩),
  ("KWT", ⟨"KWT", "Kuwait", "Middle East", "Western Asia", "high", "KWD", "🇰🇼"⟩),
  ("OMN", ⟨"OMN", "Oman", "Middle East", "Western Asia", "high", "OMR", "🇴🇲"⟩),
  ("JOR", ⟨"JOR", "Jordan", "Middle East", "Western Asia", "upper_middle", "JOD", "🇯🇴"⟩),
  ("LBN", ⟨"LBN", "Lebanon", "Middle East", "Western Asia", "upper_middle", "LBP", "🇱🇧"⟩),
  ("BHR", ⟨"BHR", "Bahrain", "Middle East", "Western Asia", "high", "BHD", "🇧🇭"⟩),
  ("EGY", ⟨"EGY", "Egypt", "Africa", "Northern Africa", "lower_middle", "EGP", "🇪🇬"⟩),
  ("MAR", ⟨"MAR", "Morocco", "Africa", "Northern Africa", "lower_middle", "MAD", "🇲🇦"⟩),
  ("DZA", ⟨"DZA", "Algeria", "Africa", "Northern Africa", "lower_middle", "DZD", "🇩🇿"⟩),
  ("TUN", ⟨"TUN", "Tunisia", "Africa", "Northern Africa", "lower_middle", "TND", "🇹🇳"⟩),
  ("LBY", ⟨"LBY", "Libya", "Africa", "Northern Africa", "upper_middle", "LYD", "🇱🇾"⟩),
  ("ZAF", ⟨"ZAF", "South Africa", "Africa", "Southern Africa", "upper_middle", "ZAR", "🇿🇦"⟩),
  ("NGA", ⟨"NGA", "Nigeria", "Africa", "Western Africa", "lower_middle", "NGN", "🇳🇬"⟩),
  ("KEN", ⟨"KEN", "Kenya", "Africa", "Eastern Africa", "lower_middle", "KES", "🇰🇪"⟩),
  ("ETH", ⟨"ETH", "Ethiopia", "Africa", "Eastern Africa", "low", "ETB", "🇪🇹"⟩),
  ("GHA", ⟨"GHA", "Ghana", "Africa", "Western Africa", "lower_middle", "GHS", "🇬🇭"⟩),
  ("TZA", ⟨"TZA", "Tanzania", "Africa", "Eastern Africa", "lower_middle", "TZS", "🇹🇿"⟩),
  ("UGA", ⟨"UGA", "Uganda", "Africa", "Eastern Africa", "low", "UGX", "🇺🇬"⟩),
  ("AGO", ⟨"AGO", "Angola", "Africa", "Middle Africa", "lower_middle", "AOA", "🇦🇴"⟩),
  ("SEN", ⟨"SEN", "Senegal", "Africa", "Western Africa", "lower_middle", "XOF", "🇸🇳"⟩)]

/-- Chunk 4 of the `COUNTRIES` dict of `src/app/countries.py` (split for elaboration speed; source insertion order preserved). -/
def COUNTRIES_chunk4 : List (String × CountryInfo) := [
  ("CIV", ⟨"CIV", "Ivory Coast", "Africa", "Western Africa", "lower_middle", "XOF", "🇨🇮"⟩),
  ("CMR", ⟨"CMR", "Cameroon", "Africa", "Middle Africa", "lower_middle", "XAF", "🇨🇲"⟩),
  ("ZWE", ⟨"ZWE", "Zimbabwe", "Africa", "Eastern Africa", "lower_middle", "ZWL", "🇿🇼"⟩),
  ("RWA", ⟨"RWA", "Rwanda", "Africa", "Eastern Africa", "low", "RWF", "🇷🇼"⟩),
  ("AUS", ⟨"AUS", "Australia", "Oceania", "Oceania", "high", "AUD", "🇦🇺"⟩),
  ("NZL", ⟨"NZL", "New Zealand", "Oceania", "Oceania", "high", "NZD", "🇳🇿"⟩),
  ("EUU", ⟨"EUU", "European Union", "Aggregates", "Europe", "high", "EUR", "🇪🇺"⟩)]

/-- The full `COUNTRIES` dict in source insertion order. -/
def COUNTRIES : List (String × CountryInfo) :=
  COUNTRIES_chunk0 ++ COUNTRIES_chunk1 ++ COUNTRIES_chunk2 ++ COUNTRIES_chunk3 ++ COUNTRIES_chunk4
/-- The `REGIONS` dict of `src/app/countries.py`. -/
def REGIONS : List (String × List String) := [
  ("North America", ["USA", "CAN", "MEX"]),
  ("South America", ["BRA", "ARG", "CHL", "COL", "PER", "VEN", "ECU", "BOL", "URY", "PRY"]),
  ("Europe - Western", ["GBR", "DEU", "FRA", "NLD", "BEL", "CHE", "AUT", "IRL", "LUX"]),
  ("Europe - Northern", ["SWE", "NOR", "DNK", "FIN", "ISL"]),
  ("Europe - Southern", ["ITA", "ESP", "PRT", "GRC", "SVN", "HRV", "SRB"]),
  ("Europe - Eastern", ["POL", "CZE", "HUN", "ROU", "BGR", "UKR", "SVK", "EST", "LVA", "LTU"]),
  ("Russia and CIS", ["RUS", "KAZ", "UZB", "BLR", "AZE", "GEO", "ARM"]),
  ("Asia - East", ["CHN", "JPN", "KOR", "TWN", "HKG", "MNG"]),
  ("Asia - South", ["IND", "PAK", "BGD", "LKA", "NPL"]),
  ("Asia - Southeast", ["IDN", "THA", "VNM", "MYS", "SGP", "PHL", "MMR", "KHM"]),
  ("Middle East", ["SAU", "ARE", "ISR", "TUR", "IRN", "IRQ", "QAT", "KWT", "OMN", "JOR", "LBN", "BHR"]),
  ("Africa - North", ["EGY", "MAR", "DZA", "TUN", "LBY"]),
  ("Africa - Sub-Saharan", ["ZAF", "NGA", "KEN", "ETH", "GHA", "TZA", "UGA", "AGO", "SEN", "CIV", "CMR", "ZWE", "RWA"]),
  ("Oceania", ["AUS", "NZL"])]

/-- First half of the `INDICATORS` dict of `src/app/indicators.py`. -/
def INDICATORS_chunk0 : List (String × IndicatorConfig) := [
  ("gdp_growth", ⟨"gdp_growth", "GDP Growth Rate", "GDP Growth", "GDP", "%",
    "Annual percentage change in real gross domestic product", "📈", some true, 2, "#2ecc71"⟩),
  ("inflation", ⟨"inflation", "Inflation Rate", "Inflation", "CPI", "%",
    "Annual percentage change in consumer price index", "💰", some false, 2, "#e74c3c"⟩),
  ("unemployment", ⟨"unemployment", "Unemployment Rate", "Unemployment", "UE", "%",
    "Percentage of labor force without employment", "👥", some false, 2, "#9b59b6"⟩),
  ("interest_rate", ⟨"interest_rate", "Policy Interest Rate", "Interest Rate", "IR", "%",
    "Central bank benchmark policy rate", "🏦", none, 2, "#3498db"⟩),
  ("gdp_per_capita", ⟨"gdp_per_capita", "GDP Per Capita", "GDP Per Capita", "GDPPC", "USD",
    "Gross domestic product divided by total population", "💵", some true, 0, "#1abc9c"⟩),
  ("current_account", ⟨"current_account", "Current Account Balance", "Current Account", "CA", "% of GDP",
    "Sum of trade balance, net income, and net transfers", "⚖️", none, 2, "#f39c12"⟩)]

/-- Second half of the `INDICATORS` dict of `src/app/indicators.py`. -/
def INDICATORS_chunk1 : List (String × IndicatorConfig) := [
  ("government_debt", ⟨"government_debt", "Government Debt", "Public Debt", "Debt", "% of GDP",
    "Total government debt as percentage of GDP", "📊", some false, 1, "#e67e22"⟩),
  ("fdi_inflows", ⟨"fdi_inflows", "Foreign Direct Investment Inflows", "FDI Inflows", "FDI", "% of GDP",
    "Net inflows of foreign direct investment", "🌐", some true, 2, "#27ae60"⟩),
  ("exchange_rate_change", ⟨"exchange_rate_change", "Exchange Rate Change", "Currency Change", "FX", "%",
    "Annual percentage change in exchange rate versus USD", "💱", none, 2, "#8e44ad"⟩),
  ("industrial_production", ⟨"industrial_production", "Industrial Production Growth", "Industrial Production", "IP", "%",
    "Annual growth rate of industrial output", "🏭", some true, 2, "#34495e"⟩),
  ("consumer_confidence", ⟨"consumer_confidence", "Consumer Confidence Index", "Consumer Confidence", "CCI", "index",
    "Survey-based measure of household economic sentiment", "😊", some true, 1, "#16a085"⟩),
  ("trade_balance", ⟨"trade_balance", "Trade Balance", "Trade Balance", "TB", "% of GDP",
    "Exports minus imports as percentage of GDP", "🚢", none, 2, "#2980b9"⟩)]

/-- The full `INDICATORS` dict in source insertion order. -/
def INDICATORS : List (String × IndicatorConfig) :=
  INDICATORS_chunk0 ++ INDICATORS_chunk1

/-- `THRESHOLDS["gdp_growth"]` from `src/app/indicators.py`. -/
def thr_gdp_growth : List (XQ × String × String) := [
  (.val 5.0, "Strong", "Robust economic expansion"),
  (.val 3.0, "Good", "Healthy economic growth"),
  (.val 1.5, "Moderate", "Sluggish but positive growth"),
  (.val 0.0, "Weak", "Near-stagnation conditions"),
  (.negInf, "Contraction", "Economy in recession")]

/-- `THRESHOLDS["inflation"]`. -/
def thr_inflation : List (XQ × String × String) := [
  (.val 2.0, "Low", "Well-controlled price stability"),
  (.val 3.5, "Target", "Near central bank targets"),
  (.val 6.0, "Elevated", "Above-target inflation"),
  (.val 10.0, "High", "Significant inflationary pressure"),
  (.posInf, "Critical", "Hyperinflationary risk")]

/-- `THRESHOLDS["unemployment"]`. -/
def thr_unemployment : List (XQ × String × String) := [
  (.val 4.0, "Tight", "Strong labor market"),
  (.val 5.5, "Healthy", "Near full employment"),
  (.val 8.0, "Elevated", "Labor market slack"),
  (.val 12.0, "High", "Significant joblessness"),
  (.posInf, "Crisis", "Severe unemployment")]

/-- `THRESHOLDS["interest_rate"]`; note the ascending threshold order. -/
def thr_interest_rate : List (XQ × String × String) := [
  (.val 2.0, "Accommodative", "Stimulative policy"),
  (.val 5.0, "Neutral", "Balanced stance"),
  (.val 8.0, "Restrictive", "Tight conditions"),
  (.posInf, "Very Tight", "Highly restrictive")]

/-- `THRESHOLDS["gdp_per_capita"]`. -/
def thr_gdp_per_capita : List (XQ × String × String) := [
  (.val 40000, "High Income", "Advanced economy"),
  (.val 15000, "Upper Middle", "Emerging market"),
  (.val 4000, "Lower Middle", "Developing economy"),
  (.negInf, "Low Income", "Least developed")]

/-- `THRESHOLDS["current_account"]`. -/
def thr_current_account : List (XQ × String × String) := [
  (.val 5.0, "Large Surplus", "Strong external position"),
  (.val 2.0, "Surplus", "Positive external balance"),
  (.val (-2.0), "Balanced", "Sustainable position"),
  (.val (-5.0), "Deficit", "External financing needs"),
  (.negInf, "Large Deficit", "External vulnerability")]

/-- `THRESHOLDS["government_debt"]`. -/
def thr_government_debt : List (XQ × String × String) := [
  (.val 40.0, "Low", "Strong fiscal position"),
  (.val 60.0, "Moderate", "Manageable debt"),
  (.val 90.0, "High", "Elevated debt"),
  (.val 120.0, "Very High", "Sustainability concerns"),
  (.posInf, "Critical", "Severe fiscal stress")]

/-- `THRESHOLDS["fdi_inflows"]`. -/
def thr_fdi_inflows : List (XQ × String × String) := [
  (.val 5.0, "Excellent", "Highly attractive"),
  (.val 3.0, "Strong", "Good investment climate"),
  (.val 1.5, "Moderate", "Average attractiveness"),
  (.negInf, "Weak", "Limited investment")]

/-- `THRESHOLDS["exchange_rate_change"]`. -/
def thr_exchange_rate_change : List (XQ × String × String) := [
  (.val 10.0, "Strong Appreciation", "Currency strengthening"),
  (.val 3.0, "Appreciation", "Currency gaining"),
  (.val (-3.0), "Stable", "Limited movement"),
  (.val (-10.0), "Depreciation", "Currency losing value"),
  (.negInf, "Sharp Depreciation", "Significant weakness")]

/-- `THRESHOLDS["industrial_production"]`. -/
def thr_industrial_production : List (XQ × String × String) := [
  (.val 6.0, "Boom", "Strong expansion"),
  (.val 3.0, "Growth", "Healthy activity"),
  (.val 1.0, "Moderate", "Slow growth"),
  (.val 0.0, "Stagnant", "Flat output"),
  (.negInf, "Contraction", "Industrial decline")]

/-- `THRESHOLDS["consumer_confidence"]`. -/
def thr_consumer_confidence : List (XQ × String × String) := [
  (.val 105.0, "Optimistic", "Strong sentiment"),
  (.val 100.0, "Neutral", "Balanced outlook"),
  (.val 95.0, "Cautious", "Consumer uncertainty"),
  (.negInf, "Pessimistic", "Weak sentiment")]

/-- `THRESHOLDS["trade_balance"]`. -/
def thr_trade_balance : List (XQ × String × String) := [
  (.val 8.0, "Large Surplus", "Export-oriented"),
  (.val 3.0, "Surplus", "Positive trade position"),
  (.val (-3.0), "Balanced", "Sustainable position"),
  (.val (-8.0), "Deficit", "Import-dependent"),
  (.negInf, "Large Deficit", "Trade imbalance")]

/-- The `THRESHOLDS` dict of `src/app/indicators.py`. -/
def THRESHOLDS : List (String × List (XQ × String × String)) := [
  ("gdp_growth", thr_gdp_growth),
  ("inflation", thr_inflation),
  ("unemployment", thr_unemployment),
  ("interest_rate", thr_interest_rate),
  ("gdp_per_capita", thr_gdp_per_capita),
  ("current_account", thr_current_account),
  ("government_debt", thr_government_debt),
  ("fdi_inflows", thr_fdi_inflows),
  ("exchange_rate_change", thr_exchange_rate_change),
  ("industrial_production", thr_industrial_production),
  ("consumer_confidence", thr_consumer_confidence),
  ("trade_balance", thr_trade_balance)]

/-- Chunk 0 of the `COUNTRY_ALIASES` dict of `src/app/chat_engine.py` (source insertion order). -/
def COUNTRY_ALIASES_chunk0 : List (String × String) := [
  ("usa", "USA"),
  ("us", "USA"),
  ("america", "USA"),
  ("united states", "USA"),
  ("uk", "GBR"),
  ("britain", "GBR"),
  ("england", "GBR"),
  ("united kingdom", "GBR"),
  ("china", "CHN"),
  ("prc", "CHN"),
  ("india", "IND"),
  ("japan", "JPN"),
  ("germany", "DEU"),
  ("france", "FRA"),
  ("brazil", "BRA"),
  ("russia", "RUS"),
  ("south korea", "KOR"),
  ("korea", "KOR"),
  ("australia", "AUS"),
  ("canada", "CAN"),
  ("mexico", "MEX"),
  ("indonesia", "IDN"),
  ("saudi", "SAU"),
  ("saudi arabia", "SAU"),
  ("turkey", "TUR"),
  ("turkiye", "TUR"),
  ("south africa", "ZAF"),
  ("nigeria", "NGA")]

/-- Chunk 1 of the `COUNTRY_ALIASES` dict of `src/app/chat_engine.py` (source insertion order). -/
def COUNTRY_ALIASES_chunk1 : List (String × String) := [
  ("egypt", "EGY"),
  ("eu", "EUU"),
  ("european union", "EUU"),
  ("europe", "EUU"),
  ("uae", "ARE"),
  ("emirates", "ARE"),
  ("vietnam", "VNM"),
  ("thailand", "THA"),
  ("malaysia", "MYS"),
  ("singapore", "SGP"),
  ("philippines", "PHL"),
  ("pakistan", "PAK"),
  ("bangladesh", "BGD"),
  ("sri lanka", "LKA"),
  ("nepal", "NPL"),
  ("argentina", "ARG"),
  ("chile", "CHL"),
  ("colombia", "COL"),
  ("peru", "PER"),
  ("venezuela", "VEN"),
  ("poland", "POL"),
  ("czech", "CZE"),
  ("czech republic", "CZE"),
  ("hungary", "HUN"),
  ("romania", "ROU"),
  ("ukraine", "UKR"),
  ("sweden", "SWE"),
  ("norway", "NOR")]

/-- Chunk 2 of the `COUNTRY_ALIASES` dict of `src/app/chat_engine.py` (source insertion order). -/
def COUNTRY_ALIASES_chunk2 : List (String × String) := [
  ("denmark", "DNK"),
  ("finland", "FIN"),
  ("netherlands", "NLD"),
  ("holland", "NLD"),
  ("belgium", "BEL"),
  ("switzerland", "CHE"),
  ("austria", "AUT"),
  ("ireland", "IRL"),
  ("italy", "ITA"),
  ("spain", "ESP"),
  ("portugal", "PRT"),
  ("greece", "GRC"),
  ("israel", "ISR"),
  ("iran", "IRN"),
  ("iraq", "IRQ"),
  ("qatar", "QAT"),
  ("kuwait", "KWT"),
  ("morocco", "MAR"),
  ("algeria", "DZA"),
  ("kenya", "KEN"),
  ("ethiopia", "ETH"),
  ("ghana", "GHA"),
  ("tanzania", "TZA"),
  ("new zealand", "NZL")]

/-- The full `COUNTRY_ALIASES` dict in source insertion order. -/
def COUNTRY_ALIASES : List (String × String) :=
  COUNTRY_ALIASES_chunk0 ++ COUNTRY_ALIASES_chunk1 ++ COUNTRY_ALIASES_chunk2

/-- The `METRIC_KEYWORDS` dict of `src/app/chat_engine.py`. -/
def METRIC_KEYWORDS : List (String × List String) := [
  ("gdp_growth", ["gdp", "growth", "economic growth", "economy growing", "gdp growth"]),
  ("inflation", ["inflation", "cpi", "prices", "price level", "cost of living", "inflationary"]),
  ("unemployment", ["unemployment", "jobless", "jobs", "labor", "employment", "job market", "unemployed"]),
  ("interest_rate", ["interest rate", "rates", "monetary policy", "central bank", "fed", "ecb", "rbi", "policy rate", "benchmark rate"]),
  ("gdp_per_capita", ["gdp per capita", "income level", "per capita", "wealth per person", "income per person"]),
  ("current_account", ["current account", "external balance", "balance of payments", "external position"]),
  ("government_debt", ["debt", "government debt", "public debt", "fiscal debt", "debt to gdp", "national debt"]),
  ("fdi_inflows", ["fdi", "foreign direct investment", "foreign investment", "investment inflows"]),
  ("exchange_rate_change", ["exchange rate", "currency", "forex", "fx", "currency movement", "appreciation", "depreciation"]),
  ("industrial_production", ["industrial production", "manufacturing", "industrial output", "factory output", "industry"]),
  ("consumer_confidence", ["consumer confidence", "consumer sentiment", "household sentiment", "consumer outlook"]),
  ("trade_balance", ["trade balance", "trade surplus", "trade deficit", "exports", "imports", "trade position"])]

/-- Baseline row for region "North America". -/
def baseline_north_america : List (String × ℚ) := [
  ("gdp_growth", 2.5),
  ("inflation", 3.2),
  ("unemployment", 4),
  ("interest_rate", 5.25),
  ("gdp_per_capita", 65000),
  ("current_account", (-3.5)),
  ("government_debt", 95),
  ("fdi_inflows", 2),
  ("exchange_rate_change", 0),
  ("industrial_production", 2),
  ("consumer_confidence", 102),
  ("trade_balance", (-4))]

/-- Baseline row for region "South America". -/
def baseline_south_america : List (String × ℚ) := [
  ("gdp_growth", 2),
  ("inflation", 8.5),
  ("unemployment", 7.5),
  ("interest_rate", 9.5),
  ("gdp_per_capita", 12000),
  ("current_account", (-2.5)),
  ("government_debt", 65),
  ("fdi_inflows", 3),
  ("exchange_rate_change", (-8)),
  ("industrial_production", 1.5),
  ("consumer_confidence", 95),
  ("trade_balance", 1)]

/-- Baseline row for region "Europe". -/
def baseline_europe : List (String × ℚ) := [
  ("gdp_growth", 1.2),
  ("inflation", 2.8),
  ("unemployment", 6),
  ("interest_rate", 4),
  ("gdp_per_capita", 45000),
  ("current_account", 2.5),
  ("government_debt", 85),
  ("fdi_inflows", 2.5),
  ("exchange_rate_change", (-2)),
  ("industrial_production", 0.5),
  ("consumer_confidence", 98),
  ("trade_balance", 3)]

/-- Baseline row for region "Russia and CIS". -/
def baseline_russia_and_cis : List (String × ℚ) := [
  ("gdp_growth", 2.5),
  ("inflation", 8),
  ("unemployment", 5.5),
  ("interest_rate", 12),
  ("gdp_per_capita", 15000),
  ("current_account", 5),
  ("government_debt", 25),
  ("fdi_inflows", 1.5),
  ("exchange_rate_change", (-10)),
  ("industrial_production", 3),
  ("consumer_confidence", 90),
  ("trade_balance", 8)]

/-- Baseline row for region "Asia". -/
def baseline_asia : List (String × ℚ) := [
  ("gdp_growth", 5),
  ("inflation", 3.5),
  ("unemployment", 4.5),
  ("interest_rate", 4.5),
  ("gdp_per_capita", 25000),
  ("current_account", 3),
  ("government_debt", 55),
  ("fdi_inflows", 3.5),
  ("exchange_rate_change", (-1)),
  ("industrial_production", 5),
  ("consumer_confidence", 105),
  ("trade_balance", 4)]

/-- Baseline row for region "Middle East". -/
def baseline_middle_east : List (String × ℚ) := [
  ("gdp_growth", 3.5),
  ("inflation", 4.5),
  ("unemployment", 8.5),
  ("interest_rate", 5.5),
  ("gdp_per_capita", 30000),
  ("current_account", 8),
  ("government_debt", 35),
  ("fdi_inflows", 2),
  ("exchange_rate_change", 0),
  ("industrial_production", 2.5),
  ("consumer_confidence", 100),
  ("trade_balance", 10)]

/-- Baseline row for region "Africa". -/
def baseline_africa : List (String × ℚ) := [
  ("gdp_growth", 3.5),
  ("inflation", 9.5),
  ("unemployment", 12),
  ("interest_rate", 11),
  ("gdp_per_capita", 3500),
  ("current_account", (-4)),
  ("government_debt", 55),
  ("fdi_inflows", 2.5),
  ("exchange_rate_change", (-12)),
  ("industrial_production", 3.5),
  ("consumer_confidence", 88),
  ("trade_balance", (-5))]

/-- Baseline row for region "Oceania". -/
def baseline_oceania : List (String × ℚ) := [
  ("gdp_growth", 2.5),
  ("inflation", 3.5),
  ("unemployment", 4),
  ("interest_rate", 4.25),
  ("gdp_per_capita", 55000),
  ("current_account", (-2)),
  ("government_debt", 45),
  ("fdi_inflows", 3),
  ("exchange_rate_change", (-3)),
  ("industrial_production", 2),
  ("consumer_confidence", 100),
  ("trade_balance", (-1))]

/-- Baseline row for region "Aggregates". -/
def baseline_aggregates : List (String × ℚ) := [
  ("gdp_growth", 2),
  ("inflation", 3),
  ("unemployment", 6),
  ("interest_rate", 4),
  ("gdp_per_capita", 40000),
  ("current_account", 1),
  ("government_debt", 80),
  ("fdi_inflows", 2.5),
  ("exchange_rate_change", 0),
  ("industrial_production", 1.5),
  ("consumer_confidence", 100),
  ("trade_balance", 2)]

/-- The `REGIONAL_BASELINES` dict of `src/app/data_fetcher.py`. -/
def REGIONAL_BASELINES : List (String × List (String × ℚ)) := [
  ("North America", baseline_north_america),
  ("South America", baseline_south_america),
  ("Europe", baseline_europe),
  ("Russia and CIS", baseline_russia_and_cis),
  ("Asia", baseline_asia),
  ("Middle East", baseline_middle_east),
  ("Africa", baseline_africa),
  ("Oceania", baseline_oceania),
  ("Aggregates", baseline_aggregates)]

/-- The `INCOME_ADJUSTMENTS` dict of `src/app/data_fetcher.py`. -/
def INCOME_ADJUSTMENTS : List (String × List (String × ℚ)) := [
  ("high", [("gdp_per_capita", 1.5), ("inflation", 0.7), ("unemployment", 0.8)]),
  ("upper_middle", [("gdp_per_capita", 0.6), ("inflation", 1.2), ("unemployment", 1)]),
  ("lower_middle", [("gdp_per_capita", 0.25), ("inflation", 1.4), ("unemployment", 1.1)]),
  ("low", [("gdp_per_capita", 0.1), ("inflation", 1.6), ("unemployment", 1.3)])]
/-- The higher-is-better scan of `get_assessment`: first threshold entry the value
meets or exceeds, in the list's stored order, with the function's fallback pair. -/
def scanGE (v : ℚ) : List (XQ × String × String) → String × String
  | [] => ("Moderate", "Within normal range")
  | (t, label, desc) :: rest => if XQ.geV v t then (label, desc) else scanGE v rest

/-- The lower-is-better scan of `get_assessment`: first threshold entry the value is
at or below, in the list's stored order, with the function's fallback pair. -/
def scanLE (v : ℚ) : List (XQ × String × String) → String × String
  | [] => ("Moderate", "Within normal range")
  | (t, label, desc) :: rest => if XQ.leV v t then (label, desc) else scanLE v rest

/-- `get_assessment` from `src/app/indicators.py`: threshold scan selected by the
indicator's `higher_is_better` flag; the `else` branch (flag `None`, or indicator
missing from `INDICATORS`) runs the same meets-or-exceeds scan as `True`. -/
def get_assessment (indicator_code : String) (value : ℚ) : String × String :=
  match dget THRESHOLDS indicator_code with
  | none => ("Moderate", "Within normal range")
  | some thresholds =>
    match dget INDICATORS indicator_code with
    | some indicator =>
      match indicator.higher_is_better with
      | some true => scanGE value thresholds
      | some false => scanLE value thresholds
      | none => scanGE value thresholds
    | none => scanGE value thresholds

/-- `DataFetcher._calculate_confidence` from `src/app/data_fetcher.py`. -/
def calculate_confidence (fred wb oecd : Option ℚ) : String × String :=
  let values := pyFilterSome [fred, wb, oecd]
  if values.length = 0 then ("no_data", "No data available from any source")
  else if values.length = 1 then ("single_source", "Data from single source only")
  else
    let avg := values.sum / (values.length : ℚ)
    let spread := listMax values - listMin values
    let relative_spread := if avg ≠ 0 then (spread / |avg|) * 100 else spread
    if relative_spread < 5.0 then ("high", "Strong agreement across all sources")
    else if relative_spread < 15.0 then ("medium", "Moderate variation between sources")
    else ("low", "Significant divergence between sources")

/-- `DataGenerator._calculate_confidence` from `src/data_pipeline/data_generator.py`
(the second confidence-banding call site; takes three plain floats). -/
def pipeline_calculate_confidence (fred worldbank oecd : ℚ) : String × String :=
  let values := [fred, worldbank, oecd]
  let avg := values.sum / 3
  let spread := listMax values - listMin values
  let relative_spread := if avg = 0 then spread else (spread / |avg|) * 100
  if relative_spread < 3.0 then ("High", "Strong agreement across all data sources")
  else if relative_spread < 8.0 then ("Medium-High", "Sources agree within acceptable variance")
  else if relative_spread < 15.0 then ("Medium", "Moderate variation between sources")
  else ("Low", "Significant divergence requires verification")

/-- `DataFetcher._generate_simulated_value` from `src/app/data_fetcher.py`.  The
`random.uniform` draws are supplied by `w` (the indicator-dependent `if/elif` that
picks the variation band only changes the draw's distribution, not the dataflow). -/
def generate_simulated_value (indicator_code : String) (country : CountryInfo)
    (w : World) : ℚ × ℚ × ℚ :=
  let baseline := (dget REGIONAL_BASELINES country.region).getD baseline_aggregates
  let base_value := (dget baseline indicator_code).getD 0.0
  let adj := (dget INCOME_ADJUSTMENTS country.income_level).getD []
  let multiplier := (dget adj indicator_code).getD 1.0
  let adjusted_base := base_value * multiplier
  let variation := w.variation
  let fred := adjusted_base + variation + w.noise1
  let wb := adjusted_base + variation + w.noise2
  let oecd := adjusted_base + variation + w.noise3
  if ["unemployment", "inflation", "interest_rate", "government_debt"].contains indicator_code then
    (max 0.1 fred, max 0.1 wb, max 0.1 oecd)
  else if indicator_code = "gdp_per_capita" then
    (max 500 fred, max 500 wb, max 500 oecd)
  else if indicator_code = "consumer_confidence" then
    (max 50 (min 150 fred), max 50 (min 150 wb), max 50 (min 150 oecd))
  else
    (fred, wb, oecd)

/-- `DataFetcher.triangulate` from `src/app/data_fetcher.py`.  Total: an unknown
country or indicator code yields the sentinel record of the `if not country or not
indicator` branch instead of raising. -/
def triangulate (indicator_code country_code : String) (w : World) : TriangulatedData :=
  match dget COUNTRIES country_code, dget INDICATORS indicator_code with
  | some country, some indicator =>
    let vals := generate_simulated_value indicator_code country w
    let decimal_places := indicator.decimal_places
    let fred := roundTo decimal_places vals.1
    let wb := roundTo decimal_places vals.2.1
    let oecd := roundTo decimal_places vals.2.2
    let consensus := roundTo decimal_places ((fred + wb + oecd) / 3)
    let conf := calculate_confidence (some fred) (some wb) (some oecd)
    let assess := get_assessment indicator_code consensus
    { country_code := country_code
      country_name := country.name
      region := country.region
      income_level := country.income_level
      indicator_code := indicator_code
      indicator_name := indicator.display_name
      unit := indicator.unit
      fred_value := some fred
      worldbank_value := some wb
      oecd_value := some oecd
      consensus_value := some consensus
      confidence_level := conf.1
      confidence_description := conf.2
      assessment_label := assess.1
      assessment_description := assess.2
      period := w.nowPeriod
      source_count := 3 }
  | _, _ =>
    { country_code := country_code
      country_name := "Unknown"
      region := "Unknown"
      income_level := "unknown"
      indicator_code := indicator_code
      indicator_name := "Unknown"
      unit := ""
      fred_value := none
      worldbank_value := none
      oecd_value := none
      consensus_value := none
      confidence_level := "no_data"
      confidence_description := "Invalid country or indicator"
      assessment_label := "Unknown"
      assessment_description := "Unable to assess"
      period := "N/A"
      source_count := 0 }

/-- The sort key `x.consensus_value or 0` of the ranking sorts in
`src/app/data_fetcher.py` (`None` and `0.0` both give `0`). -/
def consensusKey (x : TriangulatedData) : ℚ :=
  (x.consensus_value).getD 0

/-- `DataFetcher.get_global_ranking` from `src/app/data_fetcher.py`: triangulate
every catalog country except the aggregate `"EUU"`, keep non-null consensus, stable
sort by the consensus key (descending unless `higher_is_better is False`), slice to
`limit`.  Each loop iteration consumes fresh random draws, modelled by `ws`. -/
def get_global_ranking (indicator_code : String) (limit : ℤ)
    (ws : String → World) : List TriangulatedData :=
  let results := (COUNTRIES.map Prod.fst).filterMap fun code =>
    if code = "EUU" then none
    else
      let data := triangulate indicator_code code (ws code)
      if data.consensus_value ≠ none then some data else none
  let reverse :=
    match dget INDICATORS indicator_code with
    | some indicator =>
      match indicator.higher_is_better with
      | some b => b
      | none => true
    | none => true
  let sorted :=
    if reverse then isort (fun a b => decide (consensusKey b ≤ consensusKey a)) results
    else isort (fun a b => decide (consensusKey a ≤ consensusKey b)) results
  pyTake limit sorted

/-- Comparison words of `ChatEngine.detect_intent`. -/
def comparison_words : List String :=
  ["compare", "vs", "versus", "difference", "between", "comparison"]

/-- Ranking words of `ChatEngine.detect_intent`. -/
def ranking_words : List String :=
  ["ranking", "top", "highest", "lowest", "best", "worst", "rank", "leading"]

/-- The region-detection loop of `ChatEngine.detect_intent`: the first region whose
lowercased name (or its `" - "`-to-`" "` normalisation) occurs in the lowercased
query; the loop breaks at the first hit. -/
def detectRegion (query_lower : String) : Option (String × List String) :=
  REGIONS.find? fun p =>
    strIn (lowerStr p.1) query_lower || strIn (replaceDash (lowerStr p.1)) query_lower

/-- `ChatEngine.detect_intent` from `src/app/chat_engine.py`. -/
def detect_intent (query : String) : Intent :=
  let query_lower := lowerStr query
  let indicators0 := METRIC_KEYWORDS.foldl
    (fun acc p => if p.2.any (fun kw => strIn kw query_lower) then acc ++ [p.1] else acc) []
  let indicators := if indicators0 = [] then ["gdp_growth"] else indicators0
  let countries0 := COUNTRIES.foldl
    (fun acc p =>
      if strIn (lowerStr p.2.name) query_lower && !(acc.contains p.1) then acc ++ [p.1]
      else acc) []
  let countries := COUNTRY_ALIASES.foldl
    (fun acc p =>
      if strIn p.1 query_lower && !(acc.contains p.2) then acc ++ [p.2] else acc) countries0
  let is_comparison := comparison_words.any (fun w => strIn w query_lower)
  let is_ranking := ranking_words.any (fun w => strIn w query_lower)
  let regionHit := detectRegion query_lower
  let is_regional := regionHit.isSome
  let region := regionHit.map Prod.fst
  let type :=
    if is_comparison = true ∧ 2 ≤ countries.length then "comparison"
    else if is_ranking = true then "ranking"
    else if is_regional = true ∧ pyTruthyOptStr region = true then "regional"
    else if countries ≠ [] then "single_country"
    else "general"
  { type := type
    countries := countries
    indicators := indicators
    is_comparison := is_comparison
    is_ranking := is_ranking
    is_regional := is_regional
    region := region }

/-- A concrete ambient state (all draws zero) used to instantiate theorems. -/
def w0 : World := ⟨0, 0, 0, 0, "2025-Q4"⟩

/-- The `decimal_places` of the indicator registered under a code, if any. -/
def indicatorDecimals (indicator_code : String) : Option ℕ :=
  (dget INDICATORS indicator_code).map IndicatorConfig.decimal_places

/-- The `higher_is_better` flag of the indicator registered under a code, if any. -/
def indicatorHigher (indicator_code : String) : Option (Option Bool) :=
  (dget INDICATORS indicator_code).map IndicatorConfig.higher_is_better

/-- The confidence classification as the specification words it: "no_data" for zero
non-null observations, "single_source" for exactly one, otherwise banded by
`relative_spread = (max - min) / |mean| * 100` (absolute spread when the mean is 0):
"high" below 5, "medium" on [5, 15), "low" otherwise. -/
def specConfidenceLevel (fred wb oecd : Option ℚ) : String :=
  let obs := pyFilterSome [fred, wb, oecd]
  if obs.length = 0 then "no_data"
  else if obs.length = 1 then "single_source"
  else
    let m := obs.sum / (obs.length : ℚ)
    let relative_spread :=
      if m = 0 then listMax obs - listMin obs else ((listMax obs - listMin obs) / |m|) * 100
    if relative_spread < 5 then "high"
    else if 5 ≤ relative_spread ∧ relative_spread < 15 then "medium"
    else "low"

/-- The relative spread both `_calculate_confidence` call sites compute for a triple
of three non-null observations. -/
def relSpread3 (f w o : ℚ) : ℚ :=
  let values := [f, w, o]
  let avg := values.sum / (values.length : ℚ)
  let spread := listMax values - listMin values
  if avg = 0 then spread else (spread / |avg|) * 100

/-- Capitalisation map from the app's lower-case confidence tiers to the data
pipeline's capitalised ones. -/
def tierCap : String → String
  | "high" => "High"
  | "medium" => "Medium"
  | "low" => "Low"
  | s => s

/-- A threshold list rearranged into descending threshold order (stable). -/
def sortThrDesc (l : List (XQ × String × String)) : List (XQ × String × String) :=
  isort (fun a b => !(XQ.ltB a.1 b.1)) l

/-- The assessment rule the specification states for neutral indicators: scan the
indicator's threshold list in descending threshold order and return the first
(label, description) entry whose threshold the value meets or exceeds. -/
def descAssess (indicator_code : String) (value : ℚ) : String × String :=
  match dget THRESHOLDS indicator_code with
  | none => ("Moderate", "Within normal range")
  | some thresholds => scanGE value (sortThrDesc thresholds)

/-- Literal reading of the region-index invariant: every code listed under a
`REGIONS` key exists in `COUNTRIES` and its `region` field equals that key. -/
def regionIndexExactAgreement : Bool :=
  REGIONS.all fun p => p.2.all fun code =>
    match dget COUNTRIES code with
    | some c => c.region == p.1
    | none => false

/-- Amended region-index invariant: every code listed under a `REGIONS` key exists
in `COUNTRIES`, and the key either equals the country's `region` field or refines it
with a `" - "` sub-qualifier (e.g. key "Europe - Western", region "Europe"). -/
def regionIndexRefinedAgreement : Bool :=
  REGIONS.all fun p => p.2.all fun code =>
    match dget COUNTRIES code with
    | some c => c.region == p.1 || isPref (c.region ++ " - ").toList p.1.toList
    | none => false

theorem mem_ins {r : α → α → Bool} {x a : α} :
    ∀ {l : List α}, a ∈ ins r x l ↔ a = x ∨ a ∈ l := by
  intro l
  induction l with
  | nil => simp [ins]
  | cons y ys ih =>
    by_cases h : r x y = true
    · simp [ins, h]
    · simp only [ins, if_neg h, List.mem_cons, ih]
      tauto

theorem mem_isort {r : α → α → Bool} {a : α} :
    ∀ {l : List α}, a ∈ isort r l ↔ a ∈ l := by
  intro l
  induction l with
  | nil => simp [isort]
  | cons y ys ih => simp [isort, mem_ins, ih]

theorem pairwise_ins {r : α → α → Bool} {s : α → α → Prop} (ht : Transitive s)
    (hr : ∀ a b, r a b = true → s a b) (hs : ∀ a b, r a b = false → s b a) (x : α) :
    ∀ {l : List α}, l.Pairwise s → (ins r x l).Pairwise s := by
  intro l
  induction l with
  | nil => intro _; simp [ins]
  | cons y ys ih =>
    intro hp
    rcases List.pairwise_cons.mp hp with ⟨hy, hys⟩
    by_cases h : r x y = true
    · rw [ins, if_pos h]
      refine List.pairwise_cons.mpr ⟨?_, hp⟩
      intro z hz
      rcases List.mem_cons.mp hz with rfl | hz
      · exact hr _ _ h
      · exact ht (hr _ _ h) (hy _ hz)
    · rw [ins, if_neg h]
      refine List.pairwise_cons.mpr ⟨?_, ih hys⟩
      intro z hz
      rcases mem_ins.mp hz with rfl | hz
      · exact hs _ _ (by simpa using h)
      · exact hy _ hz

theorem pairwise_isort {r : α → α → Bool} {s : α → α → Prop} (ht : Transitive s)
    (hr : ∀ a b, r a b = true → s a b) (hs : ∀ a b, r a b = false → s b a) :
    ∀ (l : List α), (isort r l).Pairwise s := by
  intro l
  induction l with
  | nil => simp [isort]
  | cons y ys ih => exact pairwise_ins ht hr hs y ih

theorem pyTake_sublist (n : ℤ) (l : List α) : (pyTake n l).Sublist l := by
  unfold pyTake
  split <;> exact List.take_sublist _ _

theorem length_pyTake_le (n : ℤ) (l : List α) (h : 0 ≤ n) :
    ((pyTake n l).length : ℤ) ≤ n := by
  unfold pyTake
  rw [if_pos h, List.length_take]
  omega

theorem listMean_three (a b c : ℚ) : listMean [a, b, c] = (a + b + c) / 3 := by
  simp [listMean]
  ring_nf

theorem triangulate_country_code (ic cc : String) (w : World) :
    (triangulate ic cc w).country_code = cc := by
  unfold triangulate
  cases dget COUNTRIES cc <;> cases dget INDICATORS ic <;> rfl

/-- C1: for every call `triangulate(indicator_code, country_code)` (and every state of
the random stream), the returned record's `consensus_value` is null iff zero of the
three raw observations (`fred_value`, `worldbank_value`, `oecd_value`) are non-null,
and otherwise equals the mean of the non-null observations rounded to the
indicator's `decimal_places`. -/
theorem consensus_mean_correct (ic cc : String) (w : World) :
    ((triangulate ic cc w).consensus_value = none ↔
      pyFilterSome [(triangulate ic cc w).fred_value, (triangulate ic cc w).worldbank_value,
        (triangulate ic cc w).oecd_value] = []) ∧
    (∀ dp, indicatorDecimals ic = some dp →
      ∀ v, (triangulate ic cc w).consensus_value = some v →
        v = roundTo dp (listMean (pyFilterSome [(triangulate ic cc w).fred_value,
          (triangulate ic cc w).worldbank_value, (triangulate ic cc w).oecd_value]))) := by
  cases hc : dget COUNTRIES cc with
  | none => simp [triangulate, hc, pyFilterSome]
  | some country =>
    cases hi : dget INDICATORS ic with
    | none => simp [triangulate, hc, hi, pyFilterSome]
    | some indicator =>
      constructor
      · simp [triangulate, hc, hi, pyFilterSome]
      · intro dp hdp v hv
        have hdp' : dp = indicator.decimal_places := by
          simp [indicatorDecimals, hi] at hdp
          exact hdp.symm
        subst hdp'
        simp only [triangulate, hc, hi] at hv ⊢
        simp [pyFilterSome, listMean_three] at hv ⊢
        rw [← hv]

/-- Witness for C1 at the concrete input `("gdp_growth", "USA")` with all random
draws zero: the consensus is `2.50` and equals the rounded mean of the three
observations. -/
theorem consensus_mean_correct_witness :
    indicatorDecimals "gdp_growth" = some 2 ∧
    (triangulate "gdp_growth" "USA" w0).consensus_value = some (5 / 2) ∧
    (5 : ℚ) / 2 = roundTo 2 (listMean (pyFilterSome [(triangulate "gdp_growth" "USA" w0).fred_value,
      (triangulate "gdp_growth" "USA" w0).worldbank_value,
      (triangulate "gdp_growth" "USA" w0).oecd_value])) :=
  ⟨by decide, by with_unfolding_all decide,
    (consensus_mean_correct "gdp_growth" "USA" w0).2 2 (by decide) (5 / 2)
      (by with_unfolding_all decide)⟩

/-- C2: `triangulate` is total (the embedding is a total function), and when the
country code or the indicator code is missing from the catalogs it returns the
well-formed sentinel record: all three source values and the consensus null,
`confidence_level = "no_data"` and `assessment_label = "Unknown"`. -/
theorem unknown_code_safe (ic cc : String) (w : World)
    (h : dget COUNTRIES cc = none ∨ dget INDICATORS ic = none) :
    (triangulate ic cc w).fred_value = none ∧
    (triangulate ic cc w).worldbank_value = none ∧
    (triangulate ic cc w).oecd_value = none ∧
    (triangulate ic cc w).consensus_value = none ∧
    (triangulate ic cc w).confidence_level = "no_data" ∧
    (triangulate ic cc w).assessment_label = "Unknown" := by
  rcases h with h | h
  · cases dget INDICATORS ic <;> simp [triangulate, h]
  · cases dget COUNTRIES cc <;> simp [triangulate, h]

/-- Witness for C2 at the concrete input `triangulate("not_a_code", "ZZZ")` of the
specification's test property. -/
theorem unknown_code_safe_witness :
    (dget COUNTRIES "ZZZ" = none ∨ dget INDICATORS "not_a_code" = none) ∧
    (triangulate "not_a_code" "ZZZ" w0).consensus_value = none ∧
    (triangulate "not_a_code" "ZZZ" w0).confidence_level = "no_data" ∧
    (triangulate "not_a_code" "ZZZ" w0).assessment_label = "Unknown" :=
  ⟨Or.inr (by decide),
    (unknown_code_safe "not_a_code" "ZZZ" w0 (Or.inr (by decide))).2.2.2.1,
    (unknown_code_safe "not_a_code" "ZZZ" w0 (Or.inr (by decide))).2.2.2.2.1,
    (unknown_code_safe "not_a_code" "ZZZ" w0 (Or.inr (by decide))).2.2.2.2.2⟩

/-- C3: the confidence classification of an observation triple is "no_data" for zero
non-null observations, "single_source" for exactly one, and otherwise is banded by
the relative spread `(max - min) / |mean| * 100` (absolute spread when the mean is
0): "high" below 5, "medium" on `[5, 15)`, "low" otherwise — as computed by
`DataFetcher._calculate_confidence`. -/
theorem confidence_classification_correct (fred wb oecd : Option ℚ) :
    (calculate_confidence fred wb oecd).1 = specConfidenceLevel fred wb oecd := by
  rcases fred with _ | f <;> rcases wb with _ | w <;> rcases oecd with _ | o <;>
    simp only [calculate_confidence, specConfidenceLevel, pyFilterSome, List.filterMap,
      id_eq, List.length_cons, List.length_nil] <;>
    norm_num <;>
    split_ifs <;>
    first
      | rfl
      | (exfalso; push_neg at *; linarith)
      | (exfalso
         push_neg at *
         rename_i h15 himp h5
         exact absurd (himp h5) (not_le.mpr h15))

/-- The app call site `DataFetcher._calculate_confidence`, on a triple of non-null
observations, classifies by 3-tier bands (5 / 15) over the shared relative spread. -/
theorem app_conf_three (f w o : ℚ) :
    calculate_confidence (some f) (some w) (some o) =
      if relSpread3 f w o < 5.0 then ("high", "Strong agreement across all sources")
      else if relSpread3 f w o < 15.0 then ("medium", "Moderate variation between sources")
      else ("low", "Significant divergence between sources") := by
  simp only [calculate_confidence, relSpread3, pyFilterSome, List.filterMap, id_eq,
    List.length_cons, List.length_nil, ite_not]
  norm_num

/-- The pipeline call site `DataGenerator._calculate_confidence` classifies by
4-tier bands (3 / 8 / 15) over the same relative spread. -/
theorem pipeline_conf_bands (f w o : ℚ) :
    pipeline_calculate_confidence f w o =
      if relSpread3 f w o < 3.0 then ("High", "Strong agreement across all data sources")
      else if relSpread3 f w o < 8.0 then ("Medium-High", "Sources agree within acceptable variance")
      else if relSpread3 f w o < 15.0 then ("Medium", "Moderate variation between sources")
      else ("Low", "Significant divergence requires verification") := by
  simp only [pipeline_calculate_confidence, relSpread3, List.length_cons, List.length_nil]
  norm_num

/-- Counterexample to C4: at the observation triple (100, 104, 100) — relative
spread 1200/304 ≈ 3.95% — the app's `_calculate_confidence` assigns tier "high"
while the data pipeline's assigns "Medium-High"; the tiers differ even after
mapping the app's lower-case tier names onto the pipeline's capitalised ones. -/
theorem confidence_band_sites_cx :
    (calculate_confidence (some 100) (some 104) (some 100)).1 = "high" ∧
    (pipeline_calculate_confidence 100 104 100).1 = "Medium-High" ∧
    tierCap (calculate_confidence (some 100) (some 104) (some 100)).1 ≠
      (pipeline_calculate_confidence 100 104 100).1 := by
  refine ⟨?_, ?_, ?_⟩ <;> with_unfolding_all decide

/-- C4 (amended): the two `_calculate_confidence` call sites agree (up to the
capitalisation map) exactly outside the band `[3, 8)` of relative spread: for every
triple of non-null observations whose relative spread is below 3 or at least 8, the
app's tier maps onto the pipeline's tier; inside `[3, 8)` the pipeline says
"Medium-High" while the app says "high" or "medium" (see the counterexample). -/
theorem confidence_band_sites_agree (f w o : ℚ)
    (h : relSpread3 f w o < 3 ∨ 8 ≤ relSpread3 f w o) :
    tierCap (calculate_confidence (some f) (some w) (some o)).1 =
      (pipeline_calculate_confidence f w o).1 := by
  rw [app_conf_three, pipeline_conf_bands]
  rcases h with h | h
  · rw [if_pos (show relSpread3 f w o < 5.0 by linarith),
      if_pos (show relSpread3 f w o < 3.0 by linarith)]
    rfl
  · have h5 : ¬ relSpread3 f w o < 5.0 := by linarith
    have h3 : ¬ relSpread3 f w o < 3.0 := by linarith
    have h8 : ¬ relSpread3 f w o < 8.0 := by linarith
    by_cases h15 : relSpread3 f w o < 15.0
    · rw [if_neg h5, if_pos h15, if_neg h3, if_neg h8, if_pos h15]
      rfl
    · rw [if_neg h5, if_neg h15, if_neg h3, if_neg h8, if_neg h15]
      rfl

/-- Witness for the amended C4 at the concrete triple (100, 100, 100), whose
relative spread 0 is below 3. -/
theorem confidence_band_sites_agree_witness :
    relSpread3 100 100 100 < 3 ∧
    tierCap (calculate_confidence (some 100) (some 100) (some 100)).1 =
      (pipeline_calculate_confidence 100 100 100).1 :=
  ⟨by with_unfolding_all decide,
    confidence_band_sites_agree 100 100 100 (Or.inl (by with_unfolding_all decide))⟩

/-- Counterexample to C5: `interest_rate` is a neutral indicator
(`higher_is_better = None`) whose threshold list is stored in ascending order;
`get_assessment` scans it in stored order with the meets-or-exceeds test, so at
consensus value 6.0 it returns "Accommodative" (the first, lowest entry), while the
claim's descending-order scan would return "Neutral". -/
theorem neutral_assessment_cx :
    indicatorHigher "interest_rate" = some none ∧
    (get_assessment "interest_rate" 6).1 = "Accommodative" ∧
    (descAssess "interest_rate" 6).1 = "Neutral" ∧
    get_assessment "interest_rate" 6 ≠ descAssess "interest_rate" 6 := by
  refine ⟨by decide, ?_, ?_, ?_⟩ <;> with_unfolding_all decide

/-- C5 (amended): the neutral branch of `get_assessment` runs the same
meets-or-exceeds scan as higher-is-better, but over the threshold list in its
STORED order.  For the neutral indicators other than `interest_rate` —
`current_account`, `exchange_rate_change` and `trade_balance`, whose lists are
stored in descending threshold order — this coincides with the claim's
descending-order scan for every value; `interest_rate`'s list is stored ascending,
so the claim fails there (see the counterexample). -/
theorem neutral_assessment_desc_scan (ic : String) (v : ℚ)
    (h : ic = "current_account" ∨ ic = "exchange_rate_change" ∨ ic = "trade_balance") :
    indicatorHigher ic = some none ∧ get_assessment ic v = descAssess ic v := by
  rcases h with rfl | rfl | rfl
  · refine ⟨by decide, ?_⟩
    have h1 : get_assessment "current_account" v = scanGE v thr_current_account := rfl
    have h2 : descAssess "current_account" v = scanGE v (sortThrDesc thr_current_account) := rfl
    have h3 : sortThrDesc thr_current_account = thr_current_account := by
      with_unfolding_all rfl
    rw [h1, h2, h3]
  · refine ⟨by decide, ?_⟩
    have h1 : get_assessment "exchange_rate_change" v =
        scanGE v thr_exchange_rate_change := rfl
    have h2 : descAssess "exchange_rate_change" v =
        scanGE v (sortThrDesc thr_exchange_rate_change) := rfl
    have h3 : sortThrDesc thr_exchange_rate_change = thr_exchange_rate_change := by
      with_unfolding_all rfl
    rw [h1, h2, h3]
  · refine ⟨by decide, ?_⟩
    have h1 : get_assessment "trade_balance" v = scanGE v thr_trade_balance := rfl
    have h2 : descAssess "trade_balance" v = scanGE v (sortThrDesc thr_trade_balance) := rfl
    have h3 : sortThrDesc thr_trade_balance = thr_trade_balance := by
      with_unfolding_all rfl
    rw [h1, h2, h3]

/-- Witness for the amended C5 at the neutral indicator `current_account` and
value 0. -/
theorem neutral_assessment_desc_scan_witness :
    ("current_account" = "current_account" ∨ "current_account" = "exchange_rate_change" ∨
      "current_account" = "trade_balance") ∧
    indicatorHigher "current_account" = some none ∧
    get_assessment "current_account" 0 = descAssess "current_account" 0 :=
  ⟨Or.inl rfl,
    (neutral_assessment_desc_scan "current_account" 0 (Or.inl rfl)).1,
    (neutral_assessment_desc_scan "current_account" 0 (Or.inl rfl)).2⟩

set_option maxRecDepth 40000 in
/-- Counterexample to C6: for the query "Compare GDP growth between USA and China"
the detected country list is not `[USA, CHN]` (the order of first mention). -/
theorem compare_query_countries_cx :
    (detect_intent "Compare GDP growth between USA and China").countries ≠ ["USA", "CHN"] := by
  decide

set_option maxRecDepth 40000 in
/-- C6 (amended): resolving "Compare GDP growth between USA and China" yields type
"comparison" and indicators `[gdp_growth]`, but countries `[CHN, USA]`: the
display-name pass (which matches "china" and runs first, in catalog order) precedes
the alias pass (which matches "usa"), so the order is detection-pass order, not
order of first mention in the query. -/
theorem compare_query_intent :
    (detect_intent "Compare GDP growth between USA and China").type = "comparison" ∧
    (detect_intent "Compare GDP growth between USA and China").countries = ["CHN", "USA"] ∧
    (detect_intent "Compare GDP growth between USA and China").indicators = ["gdp_growth"] := by
  refine ⟨?_, ?_, ?_⟩ <;> decide

theorem regions_nonempty : ∀ p ∈ REGIONS, (p.1 == "") = false := by decide

set_option maxRecDepth 40000 in
/-- C7: for every query, the intent type is decided in strict priority order —
"comparison" when a comparison word is present and at least 2 countries were
detected, else "ranking" when a ranking word is present, else "regional" when a
region was resolved, else "single_country" when at least one country was detected,
else "general"; in particular the query "top countries in Asia - South by
inflation", which has both a ranking word and a resolved region, gets type
"ranking". -/
theorem intent_type_priority :
    (∀ q : String,
      (detect_intent q).type =
        (if (detect_intent q).is_comparison = true ∧ 2 ≤ (detect_intent q).countries.length
          then "comparison"
          else if (detect_intent q).is_ranking = true then "ranking"
          else if (detect_intent q).region ≠ none then "regional"
          else if (detect_intent q).countries ≠ [] then "single_country"
          else "general")) ∧
    ((detect_intent "top countries in Asia - South by inflation").is_ranking = true ∧
      (detect_intent "top countries in Asia - South by inflation").region = some "Asia - South" ∧
      (detect_intent "top countries in Asia - South by inflation").type = "ranking") := by
  constructor
  · intro q
    cases hr : detectRegion (lowerStr q) with
    | none => simp [detect_intent, hr, pyTruthyOptStr]
    | some p =>
      have hp : p ∈ REGIONS := List.mem_of_find?_eq_some (by simpa [detectRegion] using hr)
      have hne : (p.1 == "") = false := regions_nonempty p hp
      simp [detect_intent, hr, pyTruthyOptStr, hne]
  · refine ⟨?_, ?_, ?_⟩ <;> decide

set_option maxRecDepth 40000 in
/-- C10: the query "status" mentions no country (no catalog display name occurs in
it), yet alias detection is raw substring containment, the alias "us" occurs inside
the word "status", and the intent resolves to countries `[USA]` with type
"single_country". -/
theorem substring_alias_false_positive :
    (detect_intent "status").countries = ["USA"] ∧
    (detect_intent "status").type = "single_country" ∧
    strIn "us" "status" = true ∧
    (COUNTRIES.all fun p => !(strIn (lowerStr p.2.name) (lowerStr "status"))) = true := by
  refine ⟨?_, ?_, ?_, ?_⟩ <;> decide

/-- Counterexample to C9: the literal invariant — every code under a `REGIONS` key
has a `region` field equal to that key — fails: "GBR" is listed under
"Europe - Western" but its catalog `region` field is "Europe". -/
theorem region_index_cx :
    regionIndexExactAgreement = false ∧
    (dget REGIONS "Europe - Western").any (fun codes => codes.contains "GBR") = true ∧
    (dget COUNTRIES "GBR").any (fun c => c.region == "Europe") = true ∧
    ("Europe" : String) ≠ "Europe - Western" := by
  refine ⟨?_, ?_, ?_, ?_⟩ <;> decide

/-- C9 (amended): every code listed in `REGIONS` is a key of `COUNTRIES`, and the
`REGIONS` key it is listed under either equals the country's `region` field or is
that field extended with a `" - "` sub-qualifier (the index subdivides Europe, Asia
and Africa into sub-regions). -/
theorem region_index_consistent : regionIndexRefinedAgreement = true := by decide

/-- Counterexample to C8: the claim quantifies over every (Python int) limit, but at
`limit = -1` the returned list can never have length at most the limit — the slice
`results[:-1]` instead drops the last element (here returning 101 of the 102
non-EUU countries), so the conjunction claimed is false at this concrete input. -/
theorem global_ranking_limit_cx :
    ¬ ((∀ x ∈ get_global_ranking "gdp_growth" (-1) (fun _ => w0), x.country_code ≠ "EUU") ∧
       ((get_global_ranking "gdp_growth" (-1) (fun _ => w0)).length : ℤ) ≤ -1 ∧
       (get_global_ranking "gdp_growth" (-1) (fun _ => w0)).Pairwise
         (fun a b => consensusKey b ≤ consensusKey a)) := by
  intro h
  have h2 := h.2.1
  omega

/-- C8 (amended): for every indicator code and every state of the random stream,
`get_global_ranking` never returns a record for the aggregate pseudo-country EUU;
for every NONNEGATIVE limit the result length is at most the limit (negative limits
follow Python slice semantics and drop trailing elements instead); and the result
is sorted by consensus value — ascending when the indicator's `higher_is_better` is
false, descending when it is true or null. -/
theorem global_ranking_props (ic : String) (limit : ℤ) (ws : String → World) :
    (∀ x ∈ get_global_ranking ic limit ws, x.country_code ≠ "EUU") ∧
    (0 ≤ limit → ((get_global_ranking ic limit ws).length : ℤ) ≤ limit) ∧
    (∀ hb, indicatorHigher ic = some hb →
      (hb = some false →
        (get_global_ranking ic limit ws).Pairwise fun a b => consensusKey a ≤ consensusKey b) ∧
      (hb ≠ some false →
        (get_global_ranking ic limit ws).Pairwise fun a b => consensusKey b ≤ consensusKey a)) := by
  have hpairD : ∀ l : List TriangulatedData,
      (isort (fun a b => decide (consensusKey b ≤ consensusKey a)) l).Pairwise
        (fun a b => consensusKey b ≤ consensusKey a) := by
    refine pairwise_isort ?_ ?_ ?_
    · exact fun a b c hab hbc => le_trans hbc hab
    · exact fun a b h => of_decide_eq_true h
    · exact fun a b h => le_of_not_le (of_decide_eq_false h)
  have hpairA : ∀ l : List TriangulatedData,
      (isort (fun a b => decide (consensusKey a ≤ consensusKey b)) l).Pairwise
        (fun a b => consensusKey a ≤ consensusKey b) := by
    refine pairwise_isort ?_ ?_ ?_
    · exact fun a b c hab hbc => le_trans hab hbc
    · exact fun a b h => of_decide_eq_true h
    · exact fun a b h => le_of_not_le (of_decide_eq_false h)
  refine ⟨?_, ?_, ?_⟩
  · intro x hx
    simp only [get_global_ranking] at hx
    have hx1 := (pyTake_sublist _ _).subset hx
    have hx2 : x ∈ (COUNTRIES.map Prod.fst).filterMap fun code =>
        if code = "EUU" then none
        else
          let data := triangulate ic code (ws code)
          if data.consensus_value ≠ none then some data else none := by
      split at hx1 <;> exact mem_isort.mp hx1
    rcases List.mem_filterMap.mp hx2 with ⟨code, _, heq⟩
    by_cases hceu : code = "EUU"
    · rw [if_pos hceu] at heq
      exact absurd heq (by simp)
    · rw [if_neg hceu] at heq
      simp only [] at heq
      by_cases hcv : (triangulate ic code (ws code)).consensus_value ≠ none
      · rw [if_pos hcv] at heq
        rw [Option.some_inj] at heq
        rw [← heq, triangulate_country_code]
        exact hceu
      · rw [if_neg hcv] at heq
        exact absurd heq (by simp)
  · intro hl
    simp only [get_global_ranking]
    exact length_pyTake_le _ _ hl
  · intro hb hhb
    rcases Option.map_eq_some'.mp hhb with ⟨ind, hind, hhb'⟩
    constructor
    · intro hbf
      subst hbf
      simp only [get_global_ranking, hind, hhb']
      exact List.Pairwise.sublist (pyTake_sublist _ _) (hpairA _)
    · intro hbf
      have : (match ind.higher_is_better with
          | some b => b
          | none => true) = true := by
        rw [hhb']
        cases hb with
        | none => rfl
        | some b => cases b with
          | false => exact absurd rfl hbf
          | true => rfl
      simp only [get_global_ranking, hind, this]
      exact List.Pairwise.sublist (pyTake_sublist _ _) (hpairD _)

/-- Witness for the amended C8 at `("gdp_growth", limit 0)` with all draws zero. -/
theorem global_ranking_props_witness :
    (0 : ℤ) ≤ 0 ∧ indicatorHigher "gdp_growth" = some (some true) ∧
    ((get_global_ranking "gdp_growth" 0 (fun _ => w0)).length : ℤ) ≤ 0 ∧
    (get_global_ranking "gdp_growth" 0 (fun _ => w0)).Pairwise
      (fun a b => consensusKey b ≤ consensusKey a) :=
  ⟨by decide, by decide,
    (global_ranking_props "gdp_growth" 0 (fun _ => w0)).2.1 (by decide),
    ((global_ranking_props "gdp_growth" 0 (fun _ => w0)).2.2 (some true) (by decide)).2
      (by decide)⟩
